import Mathlib

/-!
Verification development for the Instagram research backend proxy.

The repository consists of two Express server variants:
* `src/unnamed/part_000` — the variant with rate limiting, input validation,
  an `/auth/authenticate` alias route, and the `session_token_` token scheme
  (modeled in namespace `SrvA`);
* `src/backend-server.js` — the simpler variant using the
  `dummy_jwt_token_for_` token scheme (modeled in namespace `SrvB`).

The upstream CRM is modeled as a record of response functions
(`UpstreamApi`); every handler returns its JSON envelope together with the
list of upstream calls it performed, so "never reaches the upstream client"
is the statement that this list is empty.  JavaScript string operations
(`split`, `startsWith`, `trim`, the `||` default idiom, truthiness of
strings) are embedded as executable functions on `List Char` / `String`.
-/

set_option maxRecDepth 4000

namespace InstaBackend

/-- Characters matched by the JavaScript regex class `\s` (also the set
trimmed by `String.prototype.trim`). -/
def jsWhitespaceChar (c : Char) : Bool :=
  c.toNat = 9 || c.toNat = 10 || c.toNat = 11 || c.toNat = 12 || c.toNat = 13 ||
  c.toNat = 32 || c.toNat = 0xa0 || c.toNat = 0x1680 ||
  (0x2000 ≤ c.toNat && c.toNat ≤ 0x200a) ||
  c.toNat = 0x2028 || c.toNat = 0x2029 || c.toNat = 0x202f || c.toNat = 0x205f ||
  c.toNat = 0x3000 || c.toNat = 0xfeff

/-- Splitting of a character list at every occurrence of a separator, keeping
empty segments, mirroring JavaScript `String.prototype.split` with a
single-character separator: `jsSplit '_' "a__b"` is `["a", "", "b"]`. -/
def jsSplit (sep : Char) : List Char → List (List Char)
  | [] => [[]]
  | c :: rest =>
    if c = sep then [] :: jsSplit sep rest
    else
      match jsSplit sep rest with
      | [] => [[c]]
      | h :: t => (c :: h) :: t

/-- Boolean prefix test on character lists, mirroring JavaScript
`String.prototype.startsWith` (first argument: the string, second: the
candidate prefix). -/
def strStartsWith : List Char → List Char → Bool
  | _, [] => true
  | [], _ :: _ => false
  | c :: s, p :: ps => c == p && strStartsWith s ps

/-- Segment at an index of a JavaScript split, `none` modeling `undefined`. -/
def jsSplitGet (sep : Char) (s : String) (i : Nat) : Option String :=
  ((jsSplit sep s.data)[i]?).map String.mk

/-- Last segment of a JavaScript split, mirroring `s.split(sep).pop()`
(the split result is never empty, so `pop` always yields a segment;
the `getD` default is unreachable). -/
def jsSplitPop (sep : Char) (s : String) : String :=
  String.mk (((jsSplit sep s.data).getLast?).getD [])

/-- First segment of a JavaScript split, mirroring `s.split(sep)[0]`. -/
def jsSplitHead (sep : Char) (s : String) : String :=
  String.mk (((jsSplit sep s.data).head?).getD [])

/-- JavaScript truthiness of an optional string: `null` / `undefined` and the
empty string are falsy. -/
def jsTruthy : Option String → Bool
  | none => false
  | some s => decide (s ≠ "")

/-- JavaScript `x || d` on an optional string `x`: the default `d` is used
when `x` is `null` / `undefined` or the empty string. -/
def jsOr (v : Option String) (d : String) : String :=
  match v with
  | none => d
  | some s => if s = "" then d else s

/-- Leading- and trailing-whitespace removal on character lists, mirroring
JavaScript `String.prototype.trim`. -/
def jsTrim (l : List Char) : List Char :=
  ((l.dropWhile jsWhitespaceChar).reverse.dropWhile jsWhitespaceChar).reverse

/-! ## Token codec -/

/-- Decimal digit characters of a natural number, mirroring the decimal
rendering that JavaScript template-literal interpolation applies to the
number returned by `Date.now()`. -/
def natDecimal (n : Nat) : List Char := Nat.toDigits 10 n

/-- Scheme A token issuance, `generateSimpleToken` from `src/unnamed/part_000`:
`session_token_<contactId>_<Date.now()>`, with the current time passed in as
`now`. -/
def generateSimpleToken (contactId : String) (now : Nat) : String :=
  "session_token_" ++ contactId ++ "_" ++ String.mk (natDecimal now)

/-- Scheme A token decoding, `verifySimpleToken` from `src/unnamed/part_000`:
tokens without the `session_token_` marker yield `null` (modeled `none`);
otherwise the token is split on `'_'` and the segment at index 2 is returned
(`none` also models the `undefined` of an out-of-range index). -/
def verifySimpleToken (token : String) : Option String :=
  if strStartsWith token.data "session_token_".data then
    jsSplitGet '_' token 2
  else none

/-- Scheme B token issuance from the `/auth/login` handler of
`src/backend-server.js`: the string concatenation
`'dummy_jwt_token_for_' + contact.id`. -/
def dummyToken (contactId : String) : String :=
  "dummy_jwt_token_for_" ++ contactId

/-! ## Basic string lemmas -/

theorem strData_append (s t : String) : (s ++ t).data = s.data ++ t.data := rfl

theorem strMk_data (s : String) : String.mk s.data = s := rfl

theorem strStartsWith_append (p r : List Char) : strStartsWith (p ++ r) p = true := by
  induction p with
  | nil => cases r <;> rfl
  | cons c cs ih => simp [strStartsWith, ih]

theorem jsSplit_append_sep (sep : Char) (a b : List Char)
    (h : a.all (fun c => !(c == sep)) = true) :
    jsSplit sep (a ++ sep :: b) = a :: jsSplit sep b := by
  induction a with
  | nil => simp [jsSplit]
  | cons c cs ih =>
    simp only [List.all_cons, Bool.and_eq_true, Bool.not_eq_true'] at h
    obtain ⟨hc, ha⟩ := h
    have hc' : ¬ (c = sep) := by
      intro hcc
      rw [hcc] at hc
      simp at hc
    simp [jsSplit, hc', ih ha]

theorem jsSplit_no_sep (sep : Char) (l : List Char)
    (h : l.all (fun c => !(c == sep)) = true) :
    jsSplit sep l = [l] := by
  induction l with
  | nil => rfl
  | cons c cs ih =>
    simp only [List.all_cons, Bool.and_eq_true, Bool.not_eq_true'] at h
    obtain ⟨hc, ha⟩ := h
    have hc' : ¬ (c = sep) := by
      intro hcc
      rw [hcc] at hc
      simp at hc
    simp [jsSplit, hc', ih ha]

theorem jsSplit_head (sep : Char) (l : List Char) :
    ∃ t, jsSplit sep l = (l.takeWhile fun c => !(c == sep)) :: t := by
  induction l with
  | nil => exact ⟨[], rfl⟩
  | cons c cs ih =>
    obtain ⟨t, ht⟩ := ih
    by_cases hc : c = sep
    · refine ⟨jsSplit sep cs, ?_⟩
      simp [jsSplit, hc, List.takeWhile_cons]
    · refine ⟨t, ?_⟩
      simp [jsSplit, hc, ht, List.takeWhile_cons]

theorem takeWhile_append_all (p : Char → Bool) (a b : List Char)
    (h : a.all p = true) :
    (a ++ b).takeWhile p = a ++ b.takeWhile p := by
  induction a with
  | nil => rfl
  | cons c cs ih =>
    simp only [List.all_cons, Bool.and_eq_true] at h
    simp [List.takeWhile_cons, h.1, ih h.2]

/-! ## Input validation (`src/unnamed/part_000` lines 62-75) -/

/-- First-occurrence split at `'@'`: `splitAtFirstAt l = some (a, b)` exactly
when `l = a ++ '@' :: b` with no `'@'` in `a`, and `none` when `l` contains
no `'@'` at all. -/
def splitAtFirstAt : List Char → Option (List Char × List Char)
  | [] => none
  | c :: rest =>
    if c = '@' then some ([], rest)
    else
      match splitAtFirstAt rest with
      | none => none
      | some (a, b) => some (c :: a, b)

/-- Character class `[^\s@]` of the email regex. -/
def emailAtomChar (c : Char) : Bool := !(jsWhitespaceChar c || c == '@')

/-- Function `validateEmail` from the source: acceptance by the anchored regex
`^[^\s@]+@[^\s@]+\.[^\s@]+$`.  Because the class `[^\s@]` excludes `'@'`,
the `'@'` consumed by the regex is necessarily the first `'@'` of the
string; the part before it must be a nonempty run of class characters, and
the part after it must be a run of class characters containing a `'.'` that
is neither its first nor its last character (the two `[^\s@]+` runs around
the `\.` may themselves contain dots, so backtracking succeeds exactly when
some interior dot exists). -/
def validateEmail (email : String) : Bool :=
  match splitAtFirstAt email.data with
  | none => false
  | some (a, b) =>
    !(a.isEmpty) && a.all emailAtomChar && b.all emailAtomChar &&
      ((b.drop 1).dropLast.contains '.')

/-- Function `validatePassword` from the source:
`password && password.length >= 6 && password.length <= 128`. -/
def validatePassword (password : String) : Bool :=
  decide (password ≠ "") && decide (6 ≤ password.length) &&
    decide (password.length ≤ 128)

/-- Characters kept by the angle-bracket-stripping replace of
`sanitizeInput`. -/
def sanitizeKeep (c : Char) : Bool := !(c == '<' || c == '>')

/-- Function `sanitizeInput` from the source: `input.trim().replace(/[<>]/g, '')`
(trim whitespace, then delete every angle bracket). -/
def sanitizeInput (s : String) : String :=
  String.mk ((jsTrim s.data).filter sanitizeKeep)

/-! ## Data model and upstream client -/

/-- Custom fields of a contact as the handlers read them
(`contact.customFields?.subscription_tier`). -/
structure CustomFields where
  subscription_tier : Option String
deriving DecidableEq

/-- Contact record as returned by the upstream CRM; `none` models an absent
(`undefined`) property. -/
structure Contact where
  id : String
  email : String
  firstName : Option String
  lastName : Option String
  customFields : Option CustomFields
deriving DecidableEq

/-- Request body that `createContact` POSTs to the upstream contacts
resource; `customFields` is the array of `{id, value}` pairs. -/
structure CreatePayload where
  email : String
  firstName : String
  lastName : String
  customFields : List (String × String)
deriving DecidableEq

/-- Request body that `updateContactResearchData` PUTs to the upstream
contact resource. -/
structure UpdatePayload where
  customFields : List (String × String)
deriving DecidableEq

/-- Upstream operations a handler can perform, recorded for each request so
that "the request never reaches the upstream client" is expressible as an
empty call list. -/
inductive UpstreamCall where
  | search (email : String)
  | create (payload : CreatePayload)
  | getContact (id : String)
  | update (id : String) (payload : UpdatePayload)
deriving DecidableEq

/-- Behavior of the upstream CRM REST API: each operation either fails
(modeling any axios error: network failure or non-2xx status) or returns
the relevant part of the response body.  `searchContacts` yields
`response.data.contacts`; the other three yield `response.data.contact`,
which may itself be absent (`none`). -/
structure UpstreamApi where
  searchContacts : String → Except String (List Contact)
  createRaw : CreatePayload → Except String (Option Contact)
  getRaw : String → Except String (Option Contact)
  updateRaw : String → UpdatePayload → Except String (Option Contact)

/-- Helper `findContactByEmail` from the source: GET the search endpoint and return
`contacts[0]`; any upstream error is swallowed (logged only) and becomes the
null sentinel, indistinguishable from an empty search result. -/
def findContactByEmail (api : UpstreamApi) (email : String) :
    Option Contact × List UpstreamCall :=
  (match api.searchContacts email with
   | .error _ => none
   | .ok contacts => contacts.head?,
   [UpstreamCall.search email])

/-- Payload built by `createContact`: `firstName || email.split('@')[0]`,
`lastName || ''`, and the password / plan custom fields; the plan defaults
to `'Individual'` only when the argument is `undefined` (JS default
parameter). -/
def createPayload (email password : String)
    (firstName lastName plan : Option String) : CreatePayload :=
  { email := email
    firstName := jsOr firstName (jsSplitHead '@' email)
    lastName := jsOr lastName ""
    customFields :=
      [("custom_field_id_for_password", password),
       ("custom_field_id_for_subscription_tier", plan.getD "Individual")] }

/-- Helper `createContact` from the source: POST the payload; any upstream error is
swallowed and becomes the null sentinel. -/
def createContact (api : UpstreamApi) (email password : String)
    (firstName lastName plan : Option String) :
    Option Contact × List UpstreamCall :=
  (match api.createRaw (createPayload email password firstName lastName plan) with
   | .error _ => none
   | .ok c => c,
   [UpstreamCall.create (createPayload email password firstName lastName plan)])

/-- Helper `getContactById` from the source: GET the contact resource; any upstream
error is swallowed and becomes the null sentinel. -/
def getContactById (api : UpstreamApi) (contactId : String) :
    Option Contact × List UpstreamCall :=
  (match api.getRaw contactId with
   | .error _ => none
   | .ok c => c,
   [UpstreamCall.getContact contactId])

/-- Payload built by `updateContactResearchData`.  The caller-supplied
research body is modeled by its serialized JSON text, so `JSON.stringify`
is the identity on this representation; `nowIso` stands for the
`new Date().toISOString()` timestamp. -/
def researchPayload (researchData nowIso : String) : UpdatePayload :=
  { customFields :=
      [("custom_field_id_for_research_data", researchData),
       ("custom_field_id_for_last_research_date", nowIso)] }

/-- Helper `updateContactResearchData` from the source: PUT the payload; unlike the
other three helpers, an upstream error is re-thrown, which the `Except`
result propagates to the caller. -/
def updateContactResearchData (api : UpstreamApi) (contactId : String)
    (researchData nowIso : String) :
    Except String (Option Contact) × List UpstreamCall :=
  (api.updateRaw contactId (researchPayload researchData nowIso),
   [UpstreamCall.update contactId (researchPayload researchData nowIso)])

/-- Subscription tier the handlers derive from a contact:
`contact.customFields?.subscription_tier || 'Individual'`. -/
def tierOf (contact : Contact) : String :=
  jsOr (contact.customFields.bind fun cf => cf.subscription_tier) "Individual"

/-- Display name shaping shared by login / authenticate / user-info in
`src/unnamed/part_000`:
`` `${contact.firstName || ''} ${contact.lastName || ''}`.trim() || contact.email ``. -/
def displayName (contact : Contact) : String :=
  let joined := jsTrim ((jsOr contact.firstName "" ++ " " ++ jsOr contact.lastName "").data)
  if joined.isEmpty then contact.email else String.mk joined

/-! ## Response envelopes -/

/-- Nested `subscription` object of the `/auth/authenticate` response. -/
structure SubscriptionJson where
  tier : String
  valid : Bool
deriving DecidableEq

/-- Nested `user` object of the various success responses; fields not
emitted by a given handler stay `none`. -/
structure UserJson where
  email : Option String := none
  id : Option String := none
  name : Option String := none
  firstName : Option (Option String) := none
  lastName : Option (Option String) := none
  subscriptionTier : Option String := none
deriving DecidableEq

/-- JSON envelope a handler sends, together with its HTTP status
(`res.json` without an explicit status is 200). -/
structure Response where
  status : Nat
  success : Bool
  message : Option String := none
  token : Option String := none
  user : Option UserJson := none
  subscriptionTier : Option String := none
  subscription : Option SubscriptionJson := none
  valid : Option Bool := none
  tier : Option String := none
  contact : Option (Option Contact) := none
deriving DecidableEq

/-- Shared bearer-header guard of the protected routes:
`req.headers.authorization` must be truthy and start with `'Bearer '`
(the empty header is falsy and, equally, fails the prefix test); the token
is then `authHeader.split(' ')[1]`, always defined because the prefix
guarantees a space. -/
def bearerToken (authHeader : Option String) : Option String :=
  match authHeader with
  | none => none
  | some h =>
    if h.data.isEmpty then none
    else if strStartsWith h.data "Bearer ".data then
      some (String.mk (((jsSplit ' ' h.data)[1]?).getD []))
    else none

/-- Response used by every protected route when the Authorization header is
missing or lacks the Bearer scheme. -/
def authRequired : Response :=
  { status := 401, success := false, message := some "Authorization token required" }

/-! ## Handlers shared verbatim by both source files -/

/-- Handler for `/research/save`, textually identical in `src/unnamed/part_000`
(lines 240-264) and `src/backend-server.js` (lines 139-163): bearer guard,
`dummy_jwt_token_for_` prefix check, decode by last underscore segment,
body presence check, then the (re-throwing) update helper with its error
mapped to 500. -/
def researchSave (api : UpstreamApi) (authHeader body : Option String)
    (nowIso : String) : Response × List UpstreamCall :=
  match bearerToken authHeader with
  | none => (authRequired, [])
  | some token =>
    if !(strStartsWith token.data "dummy_jwt_token_for_".data) then
      ({ status := 401, success := false, message := some "Invalid token" }, [])
    else
      let contactId := jsSplitPop '_' token
      if !(jsTruthy body) then
        ({ status := 400, success := false, message := some "Research data is required" }, [])
      else
        match updateContactResearchData api contactId (body.getD "") nowIso with
        | (.ok updated, calls) =>
          ({ status := 200, success := true, message := some "Research data saved",
             contact := some updated }, calls)
        | (.error _, calls) =>
          ({ status := 500, success := false,
             message := some "Failed to save research data" }, calls)

/-- Handler for `/subscription/check`, textually identical in
`src/unnamed/part_000` (lines 321-346) and `src/backend-server.js`
(lines 166-191): bearer guard, `dummy_jwt_token_for_` prefix check, decode
by last underscore segment, contact lookup (404 when absent), tier defaulted
through `||`, and `valid` computed as `tier !== 'Expired'`. -/
def subscriptionCheck (api : UpstreamApi) (authHeader : Option String) :
    Response × List UpstreamCall :=
  match bearerToken authHeader with
  | none => (authRequired, [])
  | some token =>
    if !(strStartsWith token.data "dummy_jwt_token_for_".data) then
      ({ status := 401, success := false, message := some "Invalid token" }, [])
    else
      match getContactById api (jsSplitPop '_' token) with
      | (none, calls) =>
        ({ status := 404, success := false, message := some "Contact not found" }, calls)
      | (some contact, calls) =>
        ({ status := 200, success := true,
           valid := some (!(decide (tierOf contact = "Expired"))),
           tier := some (tierOf contact) }, calls)

namespace SrvA

/-! Handlers of `src/unnamed/part_000`. -/

/-- Success envelope of the tail of `/auth/login` in `src/unnamed/part_000`. -/
def loginSuccess (contact : Contact) (now : Nat) : Response :=
  { status := 200, success := true, message := some "Login successful",
    token := some (generateSimpleToken contact.id now),
    user := some { email := some contact.email, id := some contact.id,
                   name := some (displayName contact),
                   subscriptionTier := some (tierOf contact) },
    subscriptionTier := some (tierOf contact) }

/-- Handler `/auth/login` from `src/unnamed/part_000` (lines 98-145): presence
check, email format check on the sanitized email, password length check,
then find-or-create against the upstream (note: the lookup and creation use
the raw, unsanitized email) and a fresh scheme-A token. -/
def login (api : UpstreamApi) (now : Nat) (email password : Option String) :
    Response × List UpstreamCall :=
  if !(jsTruthy email && jsTruthy password) then
    ({ status := 400, success := false,
       message := some "Email and password are required" }, [])
  else
    let e := email.getD ""
    let p := password.getD ""
    if !(validateEmail (sanitizeInput e)) then
      ({ status := 400, success := false, message := some "Invalid email format" }, [])
    else if !(validatePassword p) then
      ({ status := 400, success := false,
         message := some "Password must be between 6 and 128 characters" }, [])
    else
      match findContactByEmail api e with
      | (some contact, calls) => (loginSuccess contact now, calls)
      | (none, calls) =>
        match createContact api e p none none none with
        | (none, calls2) =>
          ({ status := 500, success := false,
             message := some "Failed to create contact" }, calls ++ calls2)
        | (some contact, calls2) => (loginSuccess contact now, calls ++ calls2)

/-- Success envelope of the tail of `/auth/authenticate` in
`src/unnamed/part_000`: like login but with a nested `subscription` object
whose `valid` field is the literal `true`. -/
def authSuccess (contact : Contact) (now : Nat) : Response :=
  { status := 200, success := true, message := some "Authentication successful",
    token := some (generateSimpleToken contact.id now),
    user := some { email := some contact.email, id := some contact.id,
                   name := some (displayName contact),
                   subscriptionTier := some (tierOf contact) },
    subscription := some { tier := tierOf contact, valid := true } }

/-- Handler `/auth/authenticate` from `src/unnamed/part_000` (lines 267-318): alias
of login for the extension, except that the upstream lookup and creation use
the sanitized email and the response carries the `subscription` object. -/
def authenticate (api : UpstreamApi) (now : Nat) (email password : Option String) :
    Response × List UpstreamCall :=
  if !(jsTruthy email && jsTruthy password) then
    ({ status := 400, success := false,
       message := some "Email and password are required" }, [])
  else
    let e := email.getD ""
    let p := password.getD ""
    if !(validateEmail (sanitizeInput e)) then
      ({ status := 400, success := false, message := some "Invalid email format" }, [])
    else if !(validatePassword p) then
      ({ status := 400, success := false,
         message := some "Password must be between 6 and 128 characters" }, [])
    else
      match findContactByEmail api (sanitizeInput e) with
      | (some contact, calls) => (authSuccess contact now, calls)
      | (none, calls) =>
        match createContact api (sanitizeInput e) p none none none with
        | (none, calls2) =>
          ({ status := 500, success := false,
             message := some "Failed to create contact" }, calls ++ calls2)
        | (some contact, calls2) => (authSuccess contact now, calls ++ calls2)

/-- Handler `/auth/signup` from `src/unnamed/part_000` (lines 175-237): presence of
all four fields, email format on the sanitized email, password length,
minimum name lengths, then contact creation with the sanitized names and the
body-supplied plan; a null creation result maps to 400, and no token is
issued. -/
def signup (api : UpstreamApi)
    (email password firstName lastName plan : Option String) :
    Response × List UpstreamCall :=
  if !(jsTruthy email && jsTruthy password && jsTruthy firstName && jsTruthy lastName) then
    ({ status := 400, success := false, message := some "All fields are required" }, [])
  else
    let e := sanitizeInput (email.getD "")
    let p := password.getD ""
    let fn := sanitizeInput (firstName.getD "")
    let ln := sanitizeInput (lastName.getD "")
    if !(validateEmail e) then
      ({ status := 400, success := false, message := some "Invalid email format" }, [])
    else if !(validatePassword p) then
      ({ status := 400, success := false,
         message := some "Password must be between 6 and 128 characters" }, [])
    else if decide (fn.length < 2) || decide (ln.length < 2) then
      ({ status := 400, success := false,
         message := some "First and last names must be at least 2 characters" }, [])
    else
      match createContact api e p (some fn) (some ln) plan with
      | (some contact, calls) =>
        ({ status := 200, success := true, message := some "Account created successfully",
           user := some { id := some contact.id, email := some contact.email,
                          firstName := some contact.firstName,
                          lastName := some contact.lastName,
                          name := some (firstName.getD "" ++ " " ++ lastName.getD "") } },
         calls)
      | (none, calls) =>
        ({ status := 400, success := false,
           message := some "Failed to create account. Email may already exist." }, calls)

/-- Handler `/user/info` from `src/unnamed/part_000` (lines 148-172): bearer guard,
`session_token_` prefix test, decode through `verifySimpleToken`, contact
lookup, and a 401 for both an unrecognized prefix and a missing contact
(`getD ""` is unreachable: the prefix guarantees a third segment). -/
def userInfo (api : UpstreamApi) (authHeader : Option String) :
    Response × List UpstreamCall :=
  match bearerToken authHeader with
  | none => (authRequired, [])
  | some token =>
    if strStartsWith token.data "session_token_".data then
      match getContactById api ((verifySimpleToken token).getD "") with
      | (some contact, calls) =>
        ({ status := 200, success := true,
           user := some { email := some contact.email, id := some contact.id,
                          name := some (displayName contact),
                          subscriptionTier := some (tierOf contact) },
           subscriptionTier := some (tierOf contact) }, calls)
      | (none, calls) =>
        ({ status := 401, success := false,
           message := some "Invalid token or user not found" }, calls)
    else
      ({ status := 401, success := false,
         message := some "Invalid token or user not found" }, [])

end SrvA

namespace SrvB

/-! Handlers of `src/backend-server.js`.  The `/auth/login` route of this
file opens a `try` block that is never closed by a `catch`; the handler
logic is modeled as written (no modeled path throws, since the helpers it
calls swallow their errors). -/

/-- Success envelope of `/auth/login` in `src/backend-server.js`: a scheme-B
token and a `user` object without a display name. -/
def loginSuccess (contact : Contact) : Response :=
  { status := 200, success := true, message := some "Login successful",
    token := some (dummyToken contact.id),
    user := some { email := some contact.email, id := some contact.id,
                   subscriptionTier := some (tierOf contact) } }

/-- Handler `/auth/login` from `src/backend-server.js` (lines 17-45): presence check
only (no email-format or password-length validation), then find-or-create
and a scheme-B token. -/
def login (api : UpstreamApi) (email password : Option String) :
    Response × List UpstreamCall :=
  if !(jsTruthy email && jsTruthy password) then
    ({ status := 400, success := false,
       message := some "Email and password are required" }, [])
  else
    let e := email.getD ""
    let p := password.getD ""
    match findContactByEmail api e with
    | (some contact, calls) => (loginSuccess contact, calls)
    | (none, calls) =>
      match createContact api e p none none none with
      | (none, calls2) =>
        ({ status := 500, success := false,
           message := some "Failed to create contact" }, calls ++ calls2)
      | (some contact, calls2) => (loginSuccess contact, calls ++ calls2)

/-- Handler `/auth/verify` from `src/backend-server.js` (lines 47-70): bearer guard,
`dummy_jwt_token_for_` prefix test, decode by last underscore segment,
contact lookup, with a shared 401 for an unrecognized prefix or a missing
contact. -/
def verifyRoute (api : UpstreamApi) (authHeader : Option String) :
    Response × List UpstreamCall :=
  match bearerToken authHeader with
  | none => (authRequired, [])
  | some token =>
    if strStartsWith token.data "dummy_jwt_token_for_".data then
      match getContactById api (jsSplitPop '_' token) with
      | (some contact, calls) =>
        ({ status := 200, success := true, message := some "Token valid",
           user := some { email := some contact.email, id := some contact.id,
                          subscriptionTier := some (tierOf contact) } }, calls)
      | (none, calls) =>
        ({ status := 401, success := false,
           message := some "Invalid or expired token" }, calls)
    else
      ({ status := 401, success := false,
         message := some "Invalid or expired token" }, [])

/-- Handler `/user/info` from `src/backend-server.js` (lines 72-94): like
`verifyRoute` but without the message on success and with the
`'Invalid token or user not found'` 401 message. -/
def userInfo (api : UpstreamApi) (authHeader : Option String) :
    Response × List UpstreamCall :=
  match bearerToken authHeader with
  | none => (authRequired, [])
  | some token =>
    if strStartsWith token.data "dummy_jwt_token_for_".data then
      match getContactById api (jsSplitPop '_' token) with
      | (some contact, calls) =>
        ({ status := 200, success := true,
           user := some { email := some contact.email, id := some contact.id,
                          subscriptionTier := some (tierOf contact) } }, calls)
      | (none, calls) =>
        ({ status := 401, success := false,
           message := some "Invalid token or user not found" }, calls)
    else
      ({ status := 401, success := false,
         message := some "Invalid token or user not found" }, [])

end SrvB

/-! ## Token-shape lemmas -/

theorem strData_mk (l : List Char) : (String.mk l).data = l := rfl

theorem underscore_data : ("_" : String).data = ['_'] := rfl

theorem generateSimpleToken_data (contactId : String) (now : Nat) :
    (generateSimpleToken contactId now).data
      = "session_token_".data ++ (contactId.data ++ '_' :: natDecimal now) := by
  simp [generateSimpleToken, strData_append, strData_mk, underscore_data,
    List.append_assoc]

theorem sessionPrefix_decomp (X : List Char) :
    "session_token_".data ++ X
      = "session".data ++ '_' :: ("token".data ++ '_' :: X) := rfl

theorem dummyPrefix_decomp (X : List Char) :
    "dummy_jwt_token_for_".data ++ X
      = "dummy".data ++ '_'
          :: ("jwt".data ++ '_' :: ("token".data ++ '_' :: ("for".data ++ '_' :: X))) := rfl

theorem dummyToken_data (contactId : String) :
    (dummyToken contactId).data = "dummy_jwt_token_for_".data ++ contactId.data := rfl

/-- Splitting a scheme-A token on underscores, for a contact id free of
underscores: the segments are `session`, `token`, the id, then the segments
of the timestamp part. -/
theorem jsSplit_generateSimpleToken (contactId : String) (now : Nat)
    (h : contactId.data.all (fun c => !(c == '_')) = true) :
    jsSplit '_' (generateSimpleToken contactId now).data
      = "session".data :: "token".data :: contactId.data
          :: jsSplit '_' (natDecimal now) := by
  rw [generateSimpleToken_data, sessionPrefix_decomp,
    jsSplit_append_sep '_' "session".data _ (by decide),
    jsSplit_append_sep '_' "token".data _ (by decide),
    jsSplit_append_sep '_' contactId.data _ h]

/-- Splitting a scheme-B token on underscores, for a contact id free of
underscores. -/
theorem jsSplit_dummyToken (contactId : String)
    (h : contactId.data.all (fun c => !(c == '_')) = true) :
    jsSplit '_' (dummyToken contactId).data
      = "dummy".data :: "jwt".data :: "token".data :: "for".data
          :: [contactId.data] := by
  rw [dummyToken_data, dummyPrefix_decomp,
    jsSplit_append_sep '_' "dummy".data _ (by decide),
    jsSplit_append_sep '_' "jwt".data _ (by decide),
    jsSplit_append_sep '_' "token".data _ (by decide),
    jsSplit_append_sep '_' "for".data _ (by decide),
    jsSplit_no_sep '_' contactId.data h]

/-- Scheme-B decode (`token.split('_').pop()`) recovers an underscore-free
contact id. -/
theorem jsSplitPop_dummyToken (contactId : String)
    (h : contactId.data.all (fun c => !(c == '_')) = true) :
    jsSplitPop '_' (dummyToken contactId) = contactId := by
  unfold jsSplitPop
  rw [jsSplit_dummyToken contactId h]
  simp [List.getLast?_cons_cons, strMk_data]

/-! ## C1: token codec round-trip -/

/-- C1 counterexample: the claim asserts the round-trip for every contact
id, but a contact id containing an underscore is not recovered by either
scheme.  Encoding `"a_b"` with scheme A and decoding yields `"a"`, and the
scheme-B decode of `'dummy_jwt_token_for_' + "a_b"` yields `"b"`. -/
theorem c1_counterexample :
    verifySimpleToken (generateSimpleToken "a_b" 1700000000000) = some "a" ∧
    some "a" ≠ some "a_b" ∧
    jsSplitPop '_' (dummyToken "a_b") = "b" ∧ ("b" : String) ≠ "a_b" := by
  refine ⟨by decide, by decide, by decide, by decide⟩

/-- C1 (amended): for every contact id containing no underscore — in
particular `"abc123"` — decoding the token produced by encoding that id
returns exactly that id, in both implemented schemes: scheme A
(`generateSimpleToken` / `verifySimpleToken`, for any issuance timestamp)
and scheme B (`'dummy_jwt_token_for_' + id` decoded by the last
underscore-delimited segment).  No expiry check is performed by either
decoder. -/
theorem c1_roundtrip (contactId : String) (now : Nat)
    (h : contactId.data.all (fun c => !(c == '_')) = true) :
    verifySimpleToken (generateSimpleToken contactId now) = some contactId ∧
    jsSplitPop '_' (dummyToken contactId) = contactId := by
  constructor
  · unfold verifySimpleToken jsSplitGet
    have hpre : strStartsWith (generateSimpleToken contactId now).data
        "session_token_".data = true := by
      rw [generateSimpleToken_data]
      exact strStartsWith_append _ _
    rw [hpre]
    simp only [if_true]
    rw [jsSplit_generateSimpleToken contactId now h]
    simp [strMk_data]
  · exact jsSplitPop_dummyToken contactId h

/-- C1 witness: the round-trip at the concrete contact id `"abc123"` of the
claim, with a concrete issuance timestamp. -/
theorem c1_roundtrip_witness :
    ("abc123" : String).data.all (fun c => !(c == '_')) = true ∧
    verifySimpleToken (generateSimpleToken "abc123" 1700000000000) = some "abc123" ∧
    jsSplitPop '_' (dummyToken "abc123") = "abc123" := by
  refine ⟨by decide, ?_, ?_⟩
  · exact (c1_roundtrip "abc123" 1700000000000 (by decide)).1
  · exact (c1_roundtrip "abc123" 1700000000000 (by decide)).2

/-! ## Bearer-header lemmas -/

theorem bearerToken_bearer (t : String) :
    bearerToken (some ("Bearer " ++ t))
      = some (String.mk (t.data.takeWhile fun c => !(c == ' '))) := by
  obtain ⟨tl, htl⟩ := jsSplit_head ' ' t.data
  have hd : ("Bearer " ++ t).data = "Bearer".data ++ ' ' :: t.data := rfl
  have hne : ("Bearer".data ++ ' ' :: t.data).isEmpty = false := rfl
  have hs : strStartsWith ("Bearer".data ++ ' ' :: t.data) "Bearer ".data = true :=
    strStartsWith_append "Bearer ".data t.data
  have hsplit : jsSplit ' ' ("Bearer".data ++ ' ' :: t.data)
      = "Bearer".data :: jsSplit ' ' t.data :=
    jsSplit_append_sep ' ' "Bearer".data t.data (by decide)
  show (if ("Bearer " ++ t).data.isEmpty then none
        else if strStartsWith ("Bearer " ++ t).data "Bearer ".data then
          some (String.mk (((jsSplit ' ' ("Bearer " ++ t).data)[1]?).getD []))
        else none) = _
  rw [hd, hne, hs, hsplit, htl]
  simp

/-- Absent-or-non-Bearer Authorization header, as tested by the common
guard `!authHeader || !authHeader.startsWith('Bearer ')` (an absent header
and one lacking the `'Bearer '` scheme prefix coincide on the second test,
since the empty string fails it too). -/
def badAuth : Option String → Bool
  | none => true
  | some h => !(strStartsWith h.data "Bearer ".data)

theorem bearerToken_eq_none (a : Option String) (h : badAuth a = true) :
    bearerToken a = none := by
  cases a with
  | none => rfl
  | some s =>
    simp only [badAuth, Bool.not_eq_true'] at h
    simp [bearerToken, h]

theorem strStartsWith_sessionPrefix_dummy (Y : List Char) :
    strStartsWith ("session_token_".data ++ Y) "dummy_jwt_token_for_".data = false := by
  have h1 : "session_token_".data ++ Y = 's' :: ("ession_token_".data ++ Y) := rfl
  have h2 : "dummy_jwt_token_for_".data = 'd' :: "ummy_jwt_token_for_".data := rfl
  rw [h1, h2]
  simp only [strStartsWith]
  rw [show (('s' : Char) == 'd') = false from rfl]
  simp

/-! ## C2: scheme-A tokens are rejected by the dummy-prefix routes -/

/-- C2: in the `src/unnamed/part_000` variant, every token issued by a
successful `/auth/login` or `/auth/authenticate` has the form
`generateSimpleToken contactId now`; presenting any such token as a bearer
credential to `/research/save` or `/subscription/check` is answered with
401 `Invalid token` — those handlers accept only the
`dummy_jwt_token_for_` prefix — and no upstream call is made. -/
theorem c2_sessionToken_rejected (contactId : String) (now : Nat)
    (api : UpstreamApi) (body : Option String) (nowIso : String) :
    researchSave api (some ("Bearer " ++ generateSimpleToken contactId now)) body nowIso
      = ({ status := 401, success := false, message := some "Invalid token" }, []) ∧
    subscriptionCheck api (some ("Bearer " ++ generateSimpleToken contactId now))
      = ({ status := 401, success := false, message := some "Invalid token" }, []) := by
  have htok := bearerToken_bearer (generateSimpleToken contactId now)
  have htw : (generateSimpleToken contactId now).data.takeWhile (fun c => !(c == ' '))
      = "session_token_".data
          ++ ((contactId.data ++ '_' :: natDecimal now).takeWhile fun c => !(c == ' ')) := by
    rw [generateSimpleToken_data]
    exact takeWhile_append_all _ _ _ (by decide)
  have hpre : strStartsWith
      (String.mk ((generateSimpleToken contactId now).data.takeWhile fun c => !(c == ' '))).data
      "dummy_jwt_token_for_".data = false := by
    rw [strData_mk, htw]
    exact strStartsWith_sessionPrefix_dummy _
  constructor
  · simp [researchSave, htok, hpre]
  · simp [subscriptionCheck, htok, hpre]

/-! ## C4: missing or non-Bearer Authorization on protected routes -/

/-- C4: for every request to a protected route (`/auth/verify`,
`/user/info` in either variant, `/research/save`, `/subscription/check`)
whose Authorization header is absent or does not use the Bearer scheme, the
handler answers 401 `Authorization token required` and performs no upstream
call (`findContactByEmail`, `createContact`, `getContactById`,
`updateContactResearchData` are all uninvoked). -/
theorem c4_unauthorized_rejected (api : UpstreamApi) (hdr body : Option String)
    (nowIso : String) (h : badAuth hdr = true) :
    SrvB.verifyRoute api hdr = (authRequired, []) ∧
    SrvA.userInfo api hdr = (authRequired, []) ∧
    SrvB.userInfo api hdr = (authRequired, []) ∧
    researchSave api hdr body nowIso = (authRequired, []) ∧
    subscriptionCheck api hdr = (authRequired, []) ∧
    authRequired.status = 401 := by
  have hb := bearerToken_eq_none hdr h
  exact ⟨by simp [SrvB.verifyRoute, hb], by simp [SrvA.userInfo, hb],
    by simp [SrvB.userInfo, hb], by simp [researchSave, hb],
    by simp [subscriptionCheck, hb], rfl⟩

/-- Upstream stub answering every operation with an empty / absent result;
used only to instantiate handler theorems at concrete inputs. -/
def emptyApi : UpstreamApi :=
  { searchContacts := fun _ => .ok []
    createRaw := fun _ => .ok none
    getRaw := fun _ => .ok none
    updateRaw := fun _ _ => .ok none }

/-- C4 witness: a concrete header using the Basic scheme is rejected by all
five protected handlers without reaching the upstream stub. -/
theorem c4_unauthorized_rejected_witness :
    badAuth (some "Basic dXNlcg==") = true ∧
    (SrvB.verifyRoute emptyApi (some "Basic dXNlcg==") = (authRequired, []) ∧
     SrvA.userInfo emptyApi (some "Basic dXNlcg==") = (authRequired, []) ∧
     SrvB.userInfo emptyApi (some "Basic dXNlcg==") = (authRequired, []) ∧
     researchSave emptyApi (some "Basic dXNlcg==") none "" = (authRequired, []) ∧
     subscriptionCheck emptyApi (some "Basic dXNlcg==") = (authRequired, []) ∧
     authRequired.status = 401) :=
  ⟨by decide,
   c4_unauthorized_rejected emptyApi (some "Basic dXNlcg==") none "" (by decide)⟩

/-! ## Login-path computation lemmas -/

theorem jsTruthy_of_validateEmail (e : String)
    (he : validateEmail (sanitizeInput e) = true) : jsTruthy (some e) = true := by
  have hne : e ≠ "" := by
    intro h
    rw [h] at he
    exact absurd he (by decide)
  simp [jsTruthy, hne]

theorem jsTruthy_of_validatePassword (p : String)
    (hp : validatePassword p = true) : jsTruthy (some p) = true := by
  have hne : p ≠ "" := by
    intro h
    rw [h] at hp
    exact absurd hp (by decide)
  simp [jsTruthy, hne]

theorem findContactByEmail_pair (api : UpstreamApi) (e : String) (r : Option Contact)
    (h : (findContactByEmail api e).1 = r) :
    findContactByEmail api e = (r, [UpstreamCall.search e]) :=
  Prod.ext h rfl

theorem createContact_pair (api : UpstreamApi) (e p : String)
    (fn ln plan : Option String) (r : Option Contact)
    (h : (createContact api e p fn ln plan).1 = r) :
    createContact api e p fn ln plan = (r, [UpstreamCall.create (createPayload e p fn ln plan)]) :=
  Prod.ext h rfl

theorem login_found (api : UpstreamApi) (now : Nat) (e p : String) (c : Contact)
    (he : validateEmail (sanitizeInput e) = true)
    (hp : validatePassword p = true)
    (hc : (findContactByEmail api e).1 = some c) :
    SrvA.login api now (some e) (some p)
      = (SrvA.loginSuccess c now, [UpstreamCall.search e]) := by
  have hfc := findContactByEmail_pair api e (some c) hc
  simp [SrvA.login, jsTruthy_of_validateEmail e he, jsTruthy_of_validatePassword p hp,
    he, hp, hfc]

theorem authenticate_found (api : UpstreamApi) (now : Nat) (e p : String) (c : Contact)
    (he : validateEmail (sanitizeInput e) = true)
    (hp : validatePassword p = true)
    (hc : (findContactByEmail api (sanitizeInput e)).1 = some c) :
    SrvA.authenticate api now (some e) (some p)
      = (SrvA.authSuccess c now, [UpstreamCall.search (sanitizeInput e)]) := by
  have hfc := findContactByEmail_pair api (sanitizeInput e) (some c) hc
  simp [SrvA.authenticate, jsTruthy_of_validateEmail e he, jsTruthy_of_validatePassword p hp,
    he, hp, hfc]

/-! ## C3: login never checks the password of an existing contact -/

/-- C3: for every contact already present upstream under the supplied email
(for `/auth/login` the lookup key is the raw email, for `/auth/authenticate`
the sanitized one — the hypotheses cover both), and any two passwords that
pass the input checks, both handlers produce identical successful outcomes,
including the issued token for that contact; the stored password custom
field is never consulted. -/
theorem c3_password_ignored (api : UpstreamApi) (now : Nat) (e p1 p2 : String)
    (c : Contact)
    (he : validateEmail (sanitizeInput e) = true)
    (hp1 : validatePassword p1 = true) (hp2 : validatePassword p2 = true)
    (hfind : (findContactByEmail api e).1 = some c)
    (hfindS : (findContactByEmail api (sanitizeInput e)).1 = some c) :
    SrvA.login api now (some e) (some p1) = SrvA.login api now (some e) (some p2) ∧
    (SrvA.login api now (some e) (some p1)).1.success = true ∧
    (SrvA.login api now (some e) (some p1)).1.token
      = some (generateSimpleToken c.id now) ∧
    SrvA.authenticate api now (some e) (some p1)
      = SrvA.authenticate api now (some e) (some p2) ∧
    (SrvA.authenticate api now (some e) (some p1)).1.success = true ∧
    (SrvA.authenticate api now (some e) (some p1)).1.token
      = some (generateSimpleToken c.id now) := by
  rw [login_found api now e p1 c he hp1 hfind, login_found api now e p2 c he hp2 hfind,
    authenticate_found api now e p1 c he hp1 hfindS,
    authenticate_found api now e p2 c he hp2 hfindS]
  exact ⟨rfl, rfl, rfl, rfl, rfl, rfl⟩

/-- Contact fixture used to instantiate handler theorems. -/
def sampleContact : Contact :=
  { id := "abc123", email := "user@example.com", firstName := some "Jane",
    lastName := some "Doe", customFields := some { subscription_tier := some "Pro" } }

/-- Upstream stub whose search and lookup always yield `sampleContact`. -/
def findingApi : UpstreamApi :=
  { searchContacts := fun _ => .ok [sampleContact]
    createRaw := fun _ => .ok none
    getRaw := fun _ => .ok (some sampleContact)
    updateRaw := fun _ _ => .ok none }

/-- C3 witness: two concrete valid passwords yield literally the same login
and authenticate outcomes for a concrete existing contact. -/
theorem c3_password_ignored_witness :
    (validateEmail (sanitizeInput "user@example.com") = true ∧
     validatePassword "hunter2" = true ∧ validatePassword "secret99" = true ∧
     (findContactByEmail findingApi "user@example.com").1 = some sampleContact ∧
     (findContactByEmail findingApi (sanitizeInput "user@example.com")).1
       = some sampleContact) ∧
    (SrvA.login findingApi 99 (some "user@example.com") (some "hunter2")
       = SrvA.login findingApi 99 (some "user@example.com") (some "secret99") ∧
     (SrvA.login findingApi 99 (some "user@example.com") (some "hunter2")).1.success = true ∧
     (SrvA.login findingApi 99 (some "user@example.com") (some "hunter2")).1.token
       = some (generateSimpleToken sampleContact.id 99) ∧
     SrvA.authenticate findingApi 99 (some "user@example.com") (some "hunter2")
       = SrvA.authenticate findingApi 99 (some "user@example.com") (some "secret99") ∧
     (SrvA.authenticate findingApi 99 (some "user@example.com") (some "hunter2")).1.success
       = true ∧
     (SrvA.authenticate findingApi 99 (some "user@example.com") (some "hunter2")).1.token
       = some (generateSimpleToken sampleContact.id 99)) :=
  ⟨⟨by decide, by decide, by decide, rfl, rfl⟩,
   c3_password_ignored findingApi 99 "user@example.com" "hunter2" "secret99"
     sampleContact (by decide) (by decide) (by decide) rfl rfl⟩

/-! ## C9: find-none then create on login -/

theorem login_created (api : UpstreamApi) (now : Nat) (e p : String) (c : Contact)
    (he : validateEmail (sanitizeInput e) = true)
    (hp : validatePassword p = true)
    (hfind : (findContactByEmail api e).1 = none)
    (hcreate : (createContact api e p none none none).1 = some c) :
    SrvA.login api now (some e) (some p)
      = (SrvA.loginSuccess c now,
         [UpstreamCall.search e, UpstreamCall.create (createPayload e p none none none)]) := by
  have hfc := findContactByEmail_pair api e none hfind
  have hcc := createContact_pair api e p none none none (some c) hcreate
  simp [SrvA.login, jsTruthy_of_validateEmail e he, jsTruthy_of_validatePassword p hp,
    he, hp, hfc, hcc]

theorem login_create_failed (api : UpstreamApi) (now : Nat) (e p : String)
    (he : validateEmail (sanitizeInput e) = true)
    (hp : validatePassword p = true)
    (hfind : (findContactByEmail api e).1 = none)
    (hcreate : (createContact api e p none none none).1 = none) :
    SrvA.login api now (some e) (some p)
      = ({ status := 500, success := false, message := some "Failed to create contact" },
         [UpstreamCall.search e, UpstreamCall.create (createPayload e p none none none)]) := by
  have hfc := findContactByEmail_pair api e none hfind
  have hcc := createContact_pair api e p none none none none hcreate
  simp [SrvA.login, jsTruthy_of_validateEmail e he, jsTruthy_of_validatePassword p hp,
    he, hp, hfc, hcc]

theorem loginB_created (api : UpstreamApi) (e p : String) (c : Contact)
    (hne : e ≠ "") (hpe : p ≠ "")
    (hfind : (findContactByEmail api e).1 = none)
    (hcreate : (createContact api e p none none none).1 = some c) :
    SrvB.login api (some e) (some p)
      = (SrvB.loginSuccess c,
         [UpstreamCall.search e, UpstreamCall.create (createPayload e p none none none)]) := by
  have hfc := findContactByEmail_pair api e none hfind
  have hcc := createContact_pair api e p none none none (some c) hcreate
  simp [SrvB.login, jsTruthy, hne, hpe, hfc, hcc]

theorem loginB_create_failed (api : UpstreamApi) (e p : String)
    (hne : e ≠ "") (hpe : p ≠ "")
    (hfind : (findContactByEmail api e).1 = none)
    (hcreate : (createContact api e p none none none).1 = none) :
    SrvB.login api (some e) (some p)
      = ({ status := 500, success := false, message := some "Failed to create contact" },
         [UpstreamCall.search e, UpstreamCall.create (createPayload e p none none none)]) := by
  have hfc := findContactByEmail_pair api e none hfind
  have hcc := createContact_pair api e p none none none none hcreate
  simp [SrvB.login, jsTruthy, hne, hpe, hfc, hcc]

/-- C9: for every login request with valid inputs where the upstream search
finds no contact, a successful creation yields a 200 response carrying a
freshly issued token for the created contact's id and that contact's echoed
email, id and subscription tier (in both variants, with their respective
token schemes); a failed creation (null sentinel) yields 500 instead. -/
theorem c9_login_create (api : UpstreamApi) (now : Nat) (e p : String)
    (he : validateEmail (sanitizeInput e) = true)
    (hp : validatePassword p = true)
    (hfind : (findContactByEmail api e).1 = none) :
    (∀ c : Contact, (createContact api e p none none none).1 = some c →
      SrvA.login api now (some e) (some p)
        = (SrvA.loginSuccess c now,
           [UpstreamCall.search e, UpstreamCall.create (createPayload e p none none none)]) ∧
      (SrvA.loginSuccess c now).status = 200 ∧
      (SrvA.loginSuccess c now).success = true ∧
      (SrvA.loginSuccess c now).token = some (generateSimpleToken c.id now) ∧
      (SrvA.loginSuccess c now).user
        = some { email := some c.email, id := some c.id,
                 name := some (displayName c),
                 subscriptionTier := some (tierOf c) } ∧
      SrvB.login api (some e) (some p)
        = (SrvB.loginSuccess c,
           [UpstreamCall.search e, UpstreamCall.create (createPayload e p none none none)]) ∧
      (SrvB.loginSuccess c).token = some (dummyToken c.id)) ∧
    ((createContact api e p none none none).1 = none →
      (SrvA.login api now (some e) (some p)).1.status = 500 ∧
      (SrvB.login api (some e) (some p)).1.status = 500) := by
  have hne : e ≠ "" := by
    intro h
    rw [h] at he
    exact absurd he (by decide)
  have hpe : p ≠ "" := by
    intro h
    rw [h] at hp
    exact absurd hp (by decide)
  constructor
  · intro c hcreate
    rw [login_created api now e p c he hp hfind hcreate,
      loginB_created api e p c hne hpe hfind hcreate]
    exact ⟨rfl, rfl, rfl, rfl, rfl, rfl, rfl⟩
  · intro hcreate
    rw [login_create_failed api now e p he hp hfind hcreate,
      loginB_create_failed api e p hne hpe hfind hcreate]
    exact ⟨rfl, rfl⟩

/-- Upstream stub that finds nothing and creates `sampleContact`. -/
def creatingApi : UpstreamApi :=
  { searchContacts := fun _ => .ok []
    createRaw := fun _ => .ok (some sampleContact)
    getRaw := fun _ => .ok none
    updateRaw := fun _ _ => .ok none }

/-- C9 witness: a concrete first-time login creates `sampleContact` and
returns its token and echoed fields. -/
theorem c9_login_create_witness :
    (validateEmail (sanitizeInput "user@example.com") = true ∧
     validatePassword "hunter2" = true ∧
     (findContactByEmail creatingApi "user@example.com").1 = none ∧
     (createContact creatingApi "user@example.com" "hunter2" none none none).1
       = some sampleContact) ∧
    (SrvA.login creatingApi 99 (some "user@example.com") (some "hunter2")
       = (SrvA.loginSuccess sampleContact 99,
          [UpstreamCall.search "user@example.com",
           UpstreamCall.create
             (createPayload "user@example.com" "hunter2" none none none)]) ∧
     (SrvA.loginSuccess sampleContact 99).status = 200 ∧
     (SrvA.loginSuccess sampleContact 99).success = true ∧
     (SrvA.loginSuccess sampleContact 99).token
       = some (generateSimpleToken sampleContact.id 99) ∧
     (SrvA.loginSuccess sampleContact 99).user
       = some { email := some sampleContact.email, id := some sampleContact.id,
                name := some (displayName sampleContact),
                subscriptionTier := some (tierOf sampleContact) } ∧
     SrvB.login creatingApi (some "user@example.com") (some "hunter2")
       = (SrvB.loginSuccess sampleContact,
          [UpstreamCall.search "user@example.com",
           UpstreamCall.create
             (createPayload "user@example.com" "hunter2" none none none)]) ∧
     (SrvB.loginSuccess sampleContact).token = some (dummyToken sampleContact.id)) :=
  ⟨⟨by decide, by decide, rfl, rfl⟩,
   (c9_login_create creatingApi 99 "user@example.com" "hunter2"
      (by decide) (by decide) rfl).1 sampleContact rfl⟩

/-! ## Dummy-token bearer lemmas -/

theorem takeWhile_all_eq (p : Char → Bool) (l : List Char) (h : l.all p = true) :
    l.takeWhile p = l := by
  induction l with
  | nil => rfl
  | cons c cs ih =>
    simp only [List.all_cons, Bool.and_eq_true] at h
    simp [List.takeWhile_cons, h.1, ih h.2]

theorem bearerToken_dummy (cid : String)
    (hs : cid.data.all (fun c => !(c == ' ')) = true) :
    bearerToken (some ("Bearer " ++ dummyToken cid)) = some (dummyToken cid) := by
  rw [bearerToken_bearer]
  congr 1
  rw [dummyToken_data, takeWhile_append_all _ _ _ (by decide), takeWhile_all_eq _ _ hs]
  rfl

theorem dummyToken_marker (cid : String) :
    strStartsWith (dummyToken cid).data "dummy_jwt_token_for_".data = true := by
  rw [dummyToken_data]
  exact strStartsWith_append _ _

/-- Computation of `/subscription/check` on a well-formed dummy token whose
decoded id resolves to a contact. -/
theorem subscriptionCheck_found (api : UpstreamApi) (cid : String) (contact : Contact)
    (hu : cid.data.all (fun c => !(c == '_')) = true)
    (hs : cid.data.all (fun c => !(c == ' ')) = true)
    (hget : api.getRaw cid = .ok (some contact)) :
    subscriptionCheck api (some ("Bearer " ++ dummyToken cid))
      = ({ status := 200, success := true,
           valid := some (!(decide (tierOf contact = "Expired"))),
           tier := some (tierOf contact) }, [UpstreamCall.getContact cid]) := by
  have hb := bearerToken_dummy cid hs
  have hpre := dummyToken_marker cid
  have hdec := jsSplitPop_dummyToken cid hu
  have hg : getContactById api cid = (some contact, [UpstreamCall.getContact cid]) := by
    simp [getContactById, hget]
  simp [subscriptionCheck, hb, hpre, hdec, hg]

/-! ## C5: upstream error-policy asymmetry -/

/-- C5: on upstream failure, `findContactByEmail`, `createContact` and
`getContactById` each swallow the error and return the null sentinel
(indistinguishable from not-found), while `updateContactResearchData`
re-throws it; the `/research/save` handler catches that propagated error
and maps it to a 500 response. -/
theorem c5_error_policy (api : UpstreamApi) (e p : String)
    (fn ln plan : Option String) (i : String) (cid : String) (body : Option String)
    (nowIso : String) (err1 err2 err3 err4 : String)
    (h1 : api.searchContacts e = .error err1)
    (h2 : api.createRaw (createPayload e p fn ln plan) = .error err2)
    (h3 : api.getRaw i = .error err3)
    (h4 : api.updateRaw (jsSplitPop '_' (dummyToken cid))
            (researchPayload (body.getD "") nowIso) = .error err4)
    (hs : cid.data.all (fun c => !(c == ' ')) = true)
    (hbody : jsTruthy body = true) :
    (findContactByEmail api e).1 = none ∧
    (createContact api e p fn ln plan).1 = none ∧
    (getContactById api i).1 = none ∧
    (updateContactResearchData api (jsSplitPop '_' (dummyToken cid))
       (body.getD "") nowIso).1 = .error err4 ∧
    (researchSave api (some ("Bearer " ++ dummyToken cid)) body nowIso).1
      = { status := 500, success := false,
          message := some "Failed to save research data" } := by
  refine ⟨by simp [findContactByEmail, h1], by simp [createContact, h2],
    by simp [getContactById, h3], by simp [updateContactResearchData, h4], ?_⟩
  have hb := bearerToken_dummy cid hs
  have hpre := dummyToken_marker cid
  have hupd : updateContactResearchData api (jsSplitPop '_' (dummyToken cid))
      (body.getD "") nowIso
      = (.error err4,
         [UpstreamCall.update (jsSplitPop '_' (dummyToken cid))
            (researchPayload (body.getD "") nowIso)]) := by
    simp [updateContactResearchData, h4]
  simp [researchSave, hb, hpre, hbody, hupd]

/-- Upstream stub failing every operation, standing for an unreachable or
erroring CRM. -/
def failingApi : UpstreamApi :=
  { searchContacts := fun _ => .error "boom"
    createRaw := fun _ => .error "boom"
    getRaw := fun _ => .error "boom"
    updateRaw := fun _ _ => .error "boom" }

/-- C5 witness: with every upstream operation failing, the three swallowing
helpers return the null sentinel, the update helper propagates the error,
and a concrete `/research/save` request is answered with 500. -/
theorem c5_error_policy_witness :
    (failingApi.searchContacts "user@example.com" = .error "boom" ∧
     failingApi.createRaw
       (createPayload "user@example.com" "hunter2" none none none) = .error "boom" ∧
     failingApi.getRaw "abc123" = .error "boom" ∧
     failingApi.updateRaw (jsSplitPop '_' (dummyToken "abc123"))
       (researchPayload ((some "notes").getD "") "2024-01-01T00:00:00.000Z")
       = .error "boom" ∧
     ("abc123" : String).data.all (fun c => !(c == ' ')) = true ∧
     jsTruthy (some "notes") = true) ∧
    ((findContactByEmail failingApi "user@example.com").1 = none ∧
     (createContact failingApi "user@example.com" "hunter2" none none none).1 = none ∧
     (getContactById failingApi "abc123").1 = none ∧
     (updateContactResearchData failingApi (jsSplitPop '_' (dummyToken "abc123"))
        ((some "notes").getD "") "2024-01-01T00:00:00.000Z").1 = .error "boom" ∧
     (researchSave failingApi (some ("Bearer " ++ dummyToken "abc123"))
        (some "notes") "2024-01-01T00:00:00.000Z").1
       = { status := 500, success := false,
           message := some "Failed to save research data" }) :=
  ⟨⟨rfl, rfl, rfl, rfl, by decide, by decide⟩,
   c5_error_policy failingApi "user@example.com" "hunter2" none none none
     "abc123" "abc123" (some "notes") "2024-01-01T00:00:00.000Z"
     "boom" "boom" "boom" "boom" rfl rfl rfl rfl (by decide) (by decide)⟩

/-! ## C8: subscription check semantics -/

/-- Contact fixture whose subscription tier custom field is present but
empty. -/
def blankTierContact : Contact :=
  { id := "c1", email := "u@example.com", firstName := none, lastName := none,
    customFields := some { subscription_tier := some "" } }

/-- Upstream stub resolving every id to `blankTierContact`. -/
def blankTierApi : UpstreamApi :=
  { searchContacts := fun _ => .ok []
    createRaw := fun _ => .ok none
    getRaw := fun _ => .ok (some blankTierContact)
    updateRaw := fun _ _ => .ok none }

/-- C8 counterexample: the claim says the reported tier is the contact's
`subscription_tier` custom field value, defaulting to `'Individual'` only
when absent; but the handler computes the tier with JavaScript `||`, so a
present-but-empty field value is also replaced by `'Individual'`, and the
response tier is not the field's value. -/
theorem c8_counterexample :
    (blankTierContact.customFields.bind fun cf => cf.subscription_tier) = some "" ∧
    (subscriptionCheck blankTierApi (some "Bearer dummy_jwt_token_for_c1")).1.tier
      = some "Individual" ∧
    (some "Individual" : Option String) ≠ some "" := by
  exact ⟨rfl, by decide, by decide⟩

/-- C8 (amended): for every `/subscription/check` request bearing a
structurally valid token whose decoded id resolves to a contact, the
response is 200 `success:true` with tier equal to the contact's
`subscription_tier` custom field value — defaulting to `'Individual'` when
the field is absent or its value is the empty string (JavaScript `||`
falsiness) — and `valid` true exactly when the tier differs from the exact
string `'Expired'`; in particular an `'Expired'` field yields
`valid:false, tier:'Expired'`. -/
theorem c8_subscription_check (api : UpstreamApi) (cid : String) (contact : Contact)
    (hu : cid.data.all (fun c => !(c == '_')) = true)
    (hs : cid.data.all (fun c => !(c == ' ')) = true)
    (hget : api.getRaw cid = .ok (some contact)) :
    (subscriptionCheck api (some ("Bearer " ++ dummyToken cid))).1
      = { status := 200, success := true,
          valid := some (!(decide (tierOf contact = "Expired"))),
          tier := some (tierOf contact) } ∧
    ((contact.customFields.bind fun cf => cf.subscription_tier) = none →
      tierOf contact = "Individual") ∧
    (∀ v, (contact.customFields.bind fun cf => cf.subscription_tier) = some v →
      (v = "" → tierOf contact = "Individual") ∧ (v ≠ "" → tierOf contact = v)) ∧
    ((contact.customFields.bind fun cf => cf.subscription_tier) = some "Expired" →
      (subscriptionCheck api (some ("Bearer " ++ dummyToken cid))).1
        = { status := 200, success := true, valid := some false,
            tier := some "Expired" }) := by
  have hfound := subscriptionCheck_found api cid contact hu hs hget
  refine ⟨by rw [hfound], ?_, ?_, ?_⟩
  · intro habs
    simp [tierOf, jsOr, habs]
  · intro v hv
    constructor
    · intro hve
      simp [tierOf, jsOr, hv, hve]
    · intro hvne
      simp [tierOf, jsOr, hv, hvne]
  · intro hexp
    have htier : tierOf contact = "Expired" := by simp [tierOf, jsOr, hexp]
    rw [hfound]
    simp [htier]

/-- Contact fixture whose subscription tier custom field is `'Expired'`. -/
def expiredContact : Contact :=
  { id := "abc123", email := "user@example.com", firstName := none, lastName := none,
    customFields := some { subscription_tier := some "Expired" } }

/-- Upstream stub finding and resolving `expiredContact` everywhere. -/
def expiredApi : UpstreamApi :=
  { searchContacts := fun _ => .ok [expiredContact]
    createRaw := fun _ => .ok none
    getRaw := fun _ => .ok (some expiredContact)
    updateRaw := fun _ _ => .ok none }

/-- C8 witness: a concrete check on a contact whose tier field is
`'Expired'` yields `success:true, valid:false, tier:'Expired'`. -/
theorem c8_subscription_check_witness :
    (("abc123" : String).data.all (fun c => !(c == '_')) = true ∧
     ("abc123" : String).data.all (fun c => !(c == ' ')) = true ∧
     expiredApi.getRaw "abc123" = .ok (some expiredContact) ∧
     (expiredContact.customFields.bind fun cf => cf.subscription_tier)
       = some "Expired") ∧
    (subscriptionCheck expiredApi (some ("Bearer " ++ dummyToken "abc123"))).1
      = { status := 200, success := true, valid := some false,
          tier := some "Expired" } :=
  ⟨⟨by decide, by decide, rfl, rfl⟩,
   (c8_subscription_check expiredApi "abc123" expiredContact
      (by decide) (by decide) rfl).2.2.2 rfl⟩

/-! ## C10: authenticate reports a constant subscription validity -/

/-- C10: the `/auth/authenticate` response carries
`subscription.valid = true` for every successfully authenticated contact —
the flag is the literal `true`, even when the contact's tier custom field
is `'Expired'` — whereas `/subscription/check` computes validity from the
tier and answers `valid:false` for the same contact. -/
theorem c10_authenticate_constant_valid (api : UpstreamApi) (now : Nat)
    (e p : String) (c : Contact)
    (he : validateEmail (sanitizeInput e) = true)
    (hp : validatePassword p = true)
    (hfindS : (findContactByEmail api (sanitizeInput e)).1 = some c) :
    (SrvA.authenticate api now (some e) (some p)).1.subscription
      = some { tier := tierOf c, valid := true } ∧
    ((c.customFields.bind fun cf => cf.subscription_tier) = some "Expired" →
      (SrvA.authenticate api now (some e) (some p)).1.subscription
        = some { tier := "Expired", valid := true } ∧
      ∀ cid : String, cid.data.all (fun ch => !(ch == '_')) = true →
        cid.data.all (fun ch => !(ch == ' ')) = true →
        api.getRaw cid = .ok (some c) →
        (subscriptionCheck api (some ("Bearer " ++ dummyToken cid))).1.valid
          = some false) := by
  have hauth := authenticate_found api now e p c he hp hfindS
  constructor
  · rw [hauth]
    rfl
  · intro hexp
    have htier : tierOf c = "Expired" := by simp [tierOf, jsOr, hexp]
    constructor
    · rw [hauth]
      simp [SrvA.authSuccess, htier]
    · intro cid hu hs hget
      rw [subscriptionCheck_found api cid c hu hs hget]
      simp [htier]

/-- C10 witness: a concrete authenticate on an `'Expired'` contact reports
`subscription.valid = true` while the concrete subscription check on the
same contact reports `valid = some false`. -/
theorem c10_authenticate_constant_valid_witness :
    (validateEmail (sanitizeInput "user@example.com") = true ∧
     validatePassword "hunter2" = true ∧
     (findContactByEmail expiredApi (sanitizeInput "user@example.com")).1
       = some expiredContact ∧
     (expiredContact.customFields.bind fun cf => cf.subscription_tier)
       = some "Expired") ∧
    (SrvA.authenticate expiredApi 99 (some "user@example.com") (some "hunter2")).1.subscription
      = some { tier := "Expired", valid := true } ∧
    (subscriptionCheck expiredApi (some ("Bearer " ++ dummyToken "abc123"))).1.valid
      = some false :=
  ⟨⟨by decide, by decide, rfl, rfl⟩,
   ((c10_authenticate_constant_valid expiredApi 99 "user@example.com" "hunter2"
       expiredContact (by decide) (by decide) rfl).2 rfl).1,
   ((c10_authenticate_constant_valid expiredApi 99 "user@example.com" "hunter2"
       expiredContact (by decide) (by decide) rfl).2 rfl).2 "abc123"
     (by decide) (by decide) rfl⟩

/-! ## Email-shape analysis for C6 -/

/-- Test for a `'.'` occurring somewhere after the first `'@'`.  Its failure
(`hasAtThenDot l = false`) says exactly that the email lacks an `'@'` or
lacks a dot in the domain part (everything after the first `'@'`). -/
def hasAtThenDot : List Char → Bool
  | [] => false
  | c :: rest => if c == '@' then rest.contains '.' else hasAtThenDot rest

theorem hasAtThenDot_append (a b : List Char) (ha : '@' ∉ a) :
    hasAtThenDot (a ++ '@' :: b) = b.contains '.' := by
  induction a with
  | nil => simp [hasAtThenDot]
  | cons c cs ih =>
    have hc : ¬(c = '@') := fun hcc => ha (hcc ▸ List.mem_cons_self c cs)
    have hcs : '@' ∉ cs := fun hm => ha (List.mem_cons_of_mem c hm)
    simp [hasAtThenDot, hc, ih hcs]

theorem exists_first_at (l : List Char) (h : '@' ∈ l) :
    ∃ a b, l = a ++ '@' :: b ∧ '@' ∉ a := by
  induction l with
  | nil => cases h
  | cons c cs ih =>
    by_cases hc : c = '@'
    · exact ⟨[], cs, by simp [hc], List.not_mem_nil '@'⟩
    · have hm : '@' ∈ cs := by
        rcases List.mem_cons.mp h with h1 | h2
        · exact absurd h1.symm hc
        · exact h2
      obtain ⟨a, b, hab, hna⟩ := ih hm
      refine ⟨c :: a, b, by rw [hab]; rfl, ?_⟩
      intro hm2
      rcases List.mem_cons.mp hm2 with h1 | h2
      · exact hc h1.symm
      · exact hna h2

theorem splitAtFirstAt_append (A B : List Char) (h : '@' ∉ A) :
    splitAtFirstAt (A ++ '@' :: B) = some (A, B) := by
  induction A with
  | nil => simp [splitAtFirstAt]
  | cons c cs ih =>
    have hc : ¬(c = '@') := fun hcc => h (hcc ▸ List.mem_cons_self c cs)
    have hcs : '@' ∉ cs := fun hm => h (List.mem_cons_of_mem c hm)
    simp [splitAtFirstAt, hc, ih hcs]

theorem splitAtFirstAt_none (l : List Char) (h : '@' ∉ l) :
    splitAtFirstAt l = none := by
  induction l with
  | nil => rfl
  | cons c cs ih =>
    have hc : ¬(c = '@') := fun hcc => h (hcc ▸ List.mem_cons_self c cs)
    have hcs : '@' ∉ cs := fun hm => h (List.mem_cons_of_mem c hm)
    simp [splitAtFirstAt, hc, ih hcs]

theorem dropWhile_append_cons (p : Char → Bool) (a b : List Char) (c : Char)
    (hc : p c = false) :
    (a ++ c :: b).dropWhile p = a.dropWhile p ++ c :: b := by
  induction a with
  | nil => simp [List.dropWhile_cons, hc]
  | cons x xs ih =>
    by_cases hx : p x = true
    · simp [List.dropWhile_cons, hx, ih]
    · simp [List.dropWhile_cons, hx]

theorem rtrim_append_cons (p : Char → Bool) (x b : List Char) (c : Char)
    (hc : p c = false) :
    ((x ++ c :: b).reverse.dropWhile p).reverse
      = x ++ c :: (b.reverse.dropWhile p).reverse := by
  rw [List.reverse_append, List.reverse_cons, List.append_assoc,
    List.singleton_append, dropWhile_append_cons p b.reverse x.reverse c hc,
    List.reverse_append, List.reverse_cons, List.reverse_reverse,
    List.append_assoc, List.singleton_append]

theorem jsTrim_append_at (a b : List Char) :
    jsTrim (a ++ '@' :: b)
      = a.dropWhile jsWhitespaceChar
          ++ '@' :: (b.reverse.dropWhile jsWhitespaceChar).reverse := by
  unfold jsTrim
  rw [dropWhile_append_cons jsWhitespaceChar a b '@' (by decide)]
  exact rtrim_append_cons jsWhitespaceChar _ b '@' (by decide)

theorem validateEmail_eq_of_decomp (s : String) (A B : List Char)
    (hd : s.data = A ++ '@' :: B) (hA : '@' ∉ A) :
    validateEmail s
      = (!(A.isEmpty) && A.all emailAtomChar && B.all emailAtomChar
          && ((B.drop 1).dropLast.contains '.')) := by
  unfold validateEmail
  rw [hd, splitAtFirstAt_append A B hA]

theorem mem_of_mem_jsTrim (c : Char) (l : List Char) (h : c ∈ jsTrim l) : c ∈ l := by
  unfold jsTrim at h
  have h2 := List.mem_reverse.mp h
  have h3 := (List.dropWhile_sublist _).mem h2
  have h4 := List.mem_reverse.mp h3
  exact (List.dropWhile_sublist _).mem h4

/-- Core of C6: any email whose domain part lacks a dot (or which lacks an
`'@'` altogether) still fails `validateEmail` after sanitization, because
trimming and bracket-stripping never add characters. -/
theorem validateEmail_sanitize_false (e : String)
    (h : hasAtThenDot e.data = false) :
    validateEmail (sanitizeInput e) = false := by
  by_cases hat : '@' ∈ e.data
  · obtain ⟨a, b, hab, hna⟩ := exists_first_at e.data hat
    have hdot : b.contains '.' = false := by
      rw [hab, hasAtThenDot_append a b hna] at h
      exact h
    have hdotm : '.' ∉ b := by simpa using hdot
    have hsan : (sanitizeInput e).data
        = (a.dropWhile jsWhitespaceChar).filter sanitizeKeep
            ++ '@' :: ((b.reverse.dropWhile jsWhitespaceChar).reverse.filter sanitizeKeep) := by
      show (jsTrim e.data).filter sanitizeKeep = _
      rw [hab, jsTrim_append_at a b, List.filter_append, List.filter_cons]
      simp only [show sanitizeKeep '@' = true from rfl, if_true]
    have hA : '@' ∉ (a.dropWhile jsWhitespaceChar).filter sanitizeKeep := by
      intro hm
      exact hna ((List.dropWhile_sublist _).mem (List.mem_of_mem_filter hm))
    have hB : '.' ∉ (b.reverse.dropWhile jsWhitespaceChar).reverse.filter sanitizeKeep := by
      intro hm
      have h2 := List.mem_of_mem_filter hm
      have h3 := List.mem_reverse.mp h2
      have h4 := (List.dropWhile_sublist _).mem h3
      exact hdotm (List.mem_reverse.mp h4)
    have hBc : (((b.reverse.dropWhile jsWhitespaceChar).reverse.filter sanitizeKeep).drop 1).dropLast.contains '.'
        = false := by
      cases hx : (((b.reverse.dropWhile jsWhitespaceChar).reverse.filter sanitizeKeep).drop 1).dropLast.contains '.' with
      | false => rfl
      | true =>
        exfalso
        have hm : '.' ∈ (((b.reverse.dropWhile jsWhitespaceChar).reverse.filter sanitizeKeep).drop 1).dropLast := by
          simpa using hx
        exact hB ((List.drop_sublist _ _).mem ((List.dropLast_sublist _).mem hm))
    rw [validateEmail_eq_of_decomp (sanitizeInput e) _ _ hsan hA, hBc]
    simp
  · have h1 : '@' ∉ (sanitizeInput e).data := by
      intro hm
      exact hat (mem_of_mem_jsTrim _ _ (List.mem_of_mem_filter hm))
    unfold validateEmail
    rw [splitAtFirstAt_none _ h1]

/-! ## C6: malformed emails are rejected by the validating handlers -/

/-- C6: for every input email that lacks an `'@'` or lacks a dot in its
domain part (`hasAtThenDot` fails, hence so does the regex on the sanitized
email, since sanitization only removes characters), the `/auth/login`,
`/auth/signup` and `/auth/authenticate` handlers of `src/unnamed/part_000`
answer 400 and make no upstream call, whatever the other body fields are. -/
theorem c6_invalid_email_rejected (api : UpstreamApi) (now : Nat) (e : String)
    (password firstName lastName plan : Option String)
    (h : hasAtThenDot e.data = false) :
    (SrvA.login api now (some e) password).1.status = 400 ∧
    (SrvA.login api now (some e) password).2 = [] ∧
    (SrvA.authenticate api now (some e) password).1.status = 400 ∧
    (SrvA.authenticate api now (some e) password).2 = [] ∧
    (SrvA.signup api (some e) password firstName lastName plan).1.status = 400 ∧
    (SrvA.signup api (some e) password firstName lastName plan).2 = [] := by
  have hval := validateEmail_sanitize_false e h
  have hlogin : (SrvA.login api now (some e) password).1.status = 400 ∧
      (SrvA.login api now (some e) password).2 = [] := by
    cases hcond : (jsTruthy (some e) && jsTruthy password) with
    | false => exact ⟨by simp [SrvA.login, hcond], by simp [SrvA.login, hcond]⟩
    | true => exact ⟨by simp [SrvA.login, hcond, hval], by simp [SrvA.login, hcond, hval]⟩
  have hauth : (SrvA.authenticate api now (some e) password).1.status = 400 ∧
      (SrvA.authenticate api now (some e) password).2 = [] := by
    cases hcond : (jsTruthy (some e) && jsTruthy password) with
    | false =>
      exact ⟨by simp [SrvA.authenticate, hcond], by simp [SrvA.authenticate, hcond]⟩
    | true =>
      exact ⟨by simp [SrvA.authenticate, hcond, hval],
        by simp [SrvA.authenticate, hcond, hval]⟩
  have hsign : (SrvA.signup api (some e) password firstName lastName plan).1.status = 400 ∧
      (SrvA.signup api (some e) password firstName lastName plan).2 = [] := by
    cases hcond : (jsTruthy (some e) && jsTruthy password && jsTruthy firstName
        && jsTruthy lastName) with
    | false => exact ⟨by simp [SrvA.signup, hcond], by simp [SrvA.signup, hcond]⟩
    | true => exact ⟨by simp [SrvA.signup, hcond, hval], by simp [SrvA.signup, hcond, hval]⟩
  exact ⟨hlogin.1, hlogin.2, hauth.1, hauth.2, hsign.1, hsign.2⟩

/-- C6 witness: a concrete dotless-domain email is rejected with 400 by all
three validating handlers without an upstream call. -/
theorem c6_invalid_email_rejected_witness :
    hasAtThenDot ("user@example" : String).data = false ∧
    ((SrvA.login emptyApi 99 (some "user@example") (some "hunter2")).1.status = 400 ∧
     (SrvA.login emptyApi 99 (some "user@example") (some "hunter2")).2 = [] ∧
     (SrvA.authenticate emptyApi 99 (some "user@example") (some "hunter2")).1.status = 400 ∧
     (SrvA.authenticate emptyApi 99 (some "user@example") (some "hunter2")).2 = [] ∧
     (SrvA.signup emptyApi (some "user@example") (some "hunter2") (some "Jane")
        (some "Doe") none).1.status = 400 ∧
     (SrvA.signup emptyApi (some "user@example") (some "hunter2") (some "Jane")
        (some "Doe") none).2 = []) :=
  ⟨by decide,
   c6_invalid_email_rejected emptyApi 99 "user@example" (some "hunter2")
     (some "Jane") (some "Doe") none (by decide)⟩

/-! ## C7: password length bounds -/

theorem login_calls_cons (api : UpstreamApi) (now : Nat) (e p : String)
    (he : validateEmail (sanitizeInput e) = true)
    (hp : validatePassword p = true) :
    ∃ r, (SrvA.login api now (some e) (some p)).2 = UpstreamCall.search e :: r := by
  rcases hcase : (findContactByEmail api e).1 with _ | c
  · rcases hc2 : (createContact api e p none none none).1 with _ | c2
    · rw [login_create_failed api now e p he hp hcase hc2]
      exact ⟨[UpstreamCall.create (createPayload e p none none none)], rfl⟩
    · rw [login_created api now e p c2 he hp hcase hc2]
      exact ⟨[UpstreamCall.create (createPayload e p none none none)], rfl⟩
  · rw [login_found api now e p c he hp hcase]
    exact ⟨[], rfl⟩

theorem authenticate_calls_cons (api : UpstreamApi) (now : Nat) (e p : String)
    (he : validateEmail (sanitizeInput e) = true)
    (hp : validatePassword p = true) :
    ∃ r, (SrvA.authenticate api now (some e) (some p)).2
      = UpstreamCall.search (sanitizeInput e) :: r := by
  have ht1 := jsTruthy_of_validateEmail e he
  have ht2 := jsTruthy_of_validatePassword p hp
  rcases hcase : (findContactByEmail api (sanitizeInput e)).1 with _ | c
  · have hfc := findContactByEmail_pair api (sanitizeInput e) none hcase
    rcases hc2 : (createContact api (sanitizeInput e) p none none none).1 with _ | c2
    · have hcc := createContact_pair api (sanitizeInput e) p none none none none hc2
      exact ⟨[UpstreamCall.create (createPayload (sanitizeInput e) p none none none)],
        by simp [SrvA.authenticate, ht1, ht2, he, hp, hfc, hcc]⟩
    · have hcc := createContact_pair api (sanitizeInput e) p none none none (some c2) hc2
      exact ⟨[UpstreamCall.create (createPayload (sanitizeInput e) p none none none)],
        by simp [SrvA.authenticate, ht1, ht2, he, hp, hfc, hcc]⟩
  · have hfc := findContactByEmail_pair api (sanitizeInput e) (some c) hcase
    exact ⟨[], by simp [SrvA.authenticate, ht1, ht2, he, hp, hfc]⟩

theorem signup_calls_cons (api : UpstreamApi) (e p fn ln : String) (plan : Option String)
    (he : validateEmail (sanitizeInput e) = true)
    (hp : validatePassword p = true)
    (hfn : jsTruthy (some fn) = true) (hln : jsTruthy (some ln) = true)
    (hfl : (decide ((sanitizeInput fn).length < 2)
            || decide ((sanitizeInput ln).length < 2)) = false) :
    ∃ r, (SrvA.signup api (some e) (some p) (some fn) (some ln) plan).2
      = UpstreamCall.create (createPayload (sanitizeInput e) p
          (some (sanitizeInput fn)) (some (sanitizeInput ln)) plan) :: r := by
  have ht1 := jsTruthy_of_validateEmail e he
  have ht2 := jsTruthy_of_validatePassword p hp
  rcases hcase : (createContact api (sanitizeInput e) p (some (sanitizeInput fn))
      (some (sanitizeInput ln)) plan).1 with _ | c
  · have hcc := createContact_pair api (sanitizeInput e) p (some (sanitizeInput fn))
      (some (sanitizeInput ln)) plan none hcase
    exact ⟨[], by simp [SrvA.signup, ht1, ht2, hfn, hln, he, hp, hfl, hcc]⟩
  · have hcc := createContact_pair api (sanitizeInput e) p (some (sanitizeInput fn))
      (some (sanitizeInput ln)) plan (some c) hcase
    exact ⟨[], by simp [SrvA.signup, ht1, ht2, hfn, hln, he, hp, hfl, hcc]⟩

/-- C7: every password of length below 6 or above 128 (the empty password
included) fails `validatePassword`, and the `/auth/login`,
`/auth/authenticate` and `/auth/signup` handlers of `src/unnamed/part_000`
answer it with 400 whatever the other fields are; a password of length
exactly 6 or exactly 128 passes validation, and with otherwise-valid fields
those handlers proceed to the upstream client (so the password is not the
cause of any rejection). -/
theorem c7_password_length (p : String) :
    ((p.length < 6 ∨ 128 < p.length) →
      validatePassword p = false ∧
      ∀ (api : UpstreamApi) (now : Nat) (email firstName lastName plan : Option String),
        (SrvA.login api now email (some p)).1.status = 400 ∧
        (SrvA.authenticate api now email (some p)).1.status = 400 ∧
        (SrvA.signup api email (some p) firstName lastName plan).1.status = 400) ∧
    (p.length = 6 ∨ p.length = 128 →
      validatePassword p = true ∧
      ∀ (api : UpstreamApi) (now : Nat),
        (SrvA.login api now (some "user@example.com") (some p)).2 ≠ [] ∧
        (SrvA.authenticate api now (some "user@example.com") (some p)).2 ≠ [] ∧
        (SrvA.signup api (some "user@example.com") (some p) (some "Jane") (some "Doe")
           none).2 ≠ []) := by
  constructor
  · intro hlen
    have hvp : validatePassword p = false := by
      rcases hlen with hl | hl
      · have h6 : decide (6 ≤ p.length) = false := by simp; omega
        simp [validatePassword, h6]
      · have h128 : decide (p.length ≤ 128) = false := by simp; omega
        simp [validatePassword, h128]
    refine ⟨hvp, ?_⟩
    intro api now email firstName lastName plan
    refine ⟨?_, ?_, ?_⟩
    · cases hcond : (jsTruthy email && jsTruthy (some p)) with
      | false => simp [SrvA.login, hcond]
      | true =>
        cases hem : validateEmail (sanitizeInput (email.getD "")) with
        | false => simp [SrvA.login, hcond, hem]
        | true => simp [SrvA.login, hcond, hem, hvp]
    · cases hcond : (jsTruthy email && jsTruthy (some p)) with
      | false => simp [SrvA.authenticate, hcond]
      | true =>
        cases hem : validateEmail (sanitizeInput (email.getD "")) with
        | false => simp [SrvA.authenticate, hcond, hem]
        | true => simp [SrvA.authenticate, hcond, hem, hvp]
    · cases hcond : (jsTruthy email && jsTruthy (some p) && jsTruthy firstName
          && jsTruthy lastName) with
      | false => simp [SrvA.signup, hcond]
      | true =>
        cases hem : validateEmail (sanitizeInput (email.getD "")) with
        | false => simp [SrvA.signup, hcond, hem]
        | true => simp [SrvA.signup, hcond, hem, hvp]
  · intro hlen
    have hne : p ≠ "" := by
      intro he
      rw [he] at hlen
      rcases hlen with h | h <;> exact absurd h (by decide)
    have hvp : validatePassword p = true := by
      rcases hlen with h | h <;> simp [validatePassword, hne, h]
    refine ⟨hvp, ?_⟩
    intro api now
    have he : validateEmail (sanitizeInput "user@example.com") = true := by decide
    refine ⟨?_, ?_, ?_⟩
    · obtain ⟨r, hr⟩ := login_calls_cons api now "user@example.com" p he hvp
      simp [hr]
    · obtain ⟨r, hr⟩ := authenticate_calls_cons api now "user@example.com" p he hvp
      simp [hr]
    · obtain ⟨r, hr⟩ := signup_calls_cons api "user@example.com" p "Jane" "Doe" none
        he hvp (by decide) (by decide) (by decide)
      simp [hr]

/-- C7 witness: the concrete short password `"abc"` is rejected with 400 by
all three handlers, and the concrete six-character password `"secret"` is
accepted and reaches the upstream stub. -/
theorem c7_password_length_witness :
    (("abc" : String).length < 6 ∨ 128 < ("abc" : String).length) ∧
    validatePassword "abc" = false ∧
    (SrvA.login emptyApi 99 (some "user@example.com") (some "abc")).1.status = 400 ∧
    (SrvA.authenticate emptyApi 99 (some "user@example.com") (some "abc")).1.status = 400 ∧
    (SrvA.signup emptyApi (some "user@example.com") (some "abc") (some "Jane")
       (some "Doe") none).1.status = 400 ∧
    (("secret" : String).length = 6 ∨ ("secret" : String).length = 128) ∧
    validatePassword "secret" = true ∧
    (SrvA.login emptyApi 99 (some "user@example.com") (some "secret")).2 ≠ [] ∧
    (SrvA.authenticate emptyApi 99 (some "user@example.com") (some "secret")).2 ≠ [] ∧
    (SrvA.signup emptyApi (some "user@example.com") (some "secret") (some "Jane")
       (some "Doe") none).2 ≠ [] := by
  have hshort := (c7_password_length "abc").1 (by decide)
  have hshortH := hshort.2 emptyApi 99 (some "user@example.com") (some "Jane")
    (some "Doe") none
  have hsix := (c7_password_length "secret").2 (by decide)
  have hsixH := hsix.2 emptyApi 99
  exact ⟨by decide, hshort.1, hshortH.1, hshortH.2.1, hshortH.2.2, by decide,
    hsix.1, hsixH.1, hsixH.2.1, hsixH.2.2⟩

end InstaBackend
